import Mathlib

/-!
Verification of the UMich consumer-sentiment transform pipeline
(`src/transforms/sentiment/main.py` and `src/transforms/sentiment/test.py`).

Shallow embedding conventions:
* A CSV row as produced by `csv.DictReader` is modelled as an association
  list from column name to `Option String`; a value of `none` models a
  Python `None` field (short row), a missing key models a column absent
  from the header.  `dict.get` with and without a default is embedded by
  `pyGet` / `pyGetD`.
* Python exceptions are modelled with `Except PyErr`; `int(...)` on a
  non-numeric string yields `PyErr.valueError`, `.strip()` on `None`
  yields `PyErr.attributeError`.
* Numeric values are modelled as exact rationals.  CPython's `float(...)`
  conversion is kept abstract: the transform functions are parameterized
  by a conversion `conv : String → Option Rat` (`none` models a raised
  `ValueError`); `pyFloatDec` is a concrete instance covering plain
  decimal literals, used for concrete evaluations.
* `int(...)` is modelled by `pyInt`, covering an optional sign followed
  by ASCII digits, and Python's `str(int)` / f-string rendering of an
  integer by `intToDecStr`.
-/

/-- Equality of `Except` values is decidable when it is on both sides. -/
def exceptDecEqFn {ε α : Type} [DecidableEq ε] [DecidableEq α] :
    DecidableEq (Except ε α) := fun x y =>
  match x, y with
  | .ok a, .ok b =>
    match decEq a b with
    | isTrue h => isTrue (h ▸ rfl)
    | isFalse h => isFalse (fun hh => h (Except.ok.inj hh))
  | .ok _, .error _ => isFalse (fun hh => Except.noConfusion hh)
  | .error _, .ok _ => isFalse (fun hh => Except.noConfusion hh)
  | .error a, .error b =>
    match decEq a b with
    | isTrue h => isTrue (h ▸ rfl)
    | isFalse h => isFalse (fun hh => h (Except.error.inj hh))

instance {ε α : Type} [DecidableEq ε] [DecidableEq α] : DecidableEq (Except ε α) :=
  exceptDecEqFn

/-- Error kinds for the Python exceptions this code can raise. -/
inductive PyErr where
  | valueError : PyErr
  | attributeError : PyErr
  | noDataError : String → PyErr
  | validationError : String → PyErr
deriving DecidableEq, Repr

/-- A raw CSV row from `csv.DictReader`: column name ↦ field value. -/
abbrev Row := List (String × Option String)

/-- `row.get(k)` with no default: missing key and a `None` value both give `none`. -/
def pyGet (row : Row) (k : String) : Option String :=
  match List.lookup k row with
  | none => none
  | some v => v

/-- `row.get(k, d)` with a string default `d` for a missing key. -/
def pyGetD (row : Row) (k : String) (d : String) : Option String :=
  match List.lookup k row with
  | none => some d
  | some v => v

/-- Models Python `str.strip()`: drops leading and trailing whitespace. -/
def pyStrip (s : String) : String :=
  ⟨((s.toList.dropWhile Char.isWhitespace).reverse.dropWhile Char.isWhitespace).reverse⟩

/-- `.strip()` applied to a `str | None` value: raises `AttributeError` on `None`. -/
def stripE : Option String → Except PyErr String
  | none => .error .attributeError
  | some s => .ok (pyStrip s)

/-- Value of a list of ASCII decimal digit characters. -/
def decDigitsVal (cs : List Char) : Nat :=
  cs.foldl (fun a c => 10 * a + (c.toNat - 48)) 0

/-- Models Python `int(s)` on an already-stripped string, for an optional
sign followed by one or more ASCII digits; `none` models a raised
`ValueError`. -/
def pyInt (s : String) : Option Int :=
  let core (cs : List Char) : Option Nat :=
    if cs.isEmpty then none
    else if cs.all Char.isDigit then some (decDigitsVal cs) else none
  match s.toList with
  | '+' :: r => (core r).map Int.ofNat
  | '-' :: r => (core r).map (fun n => -(n : Int))
  | cs => (core cs).map Int.ofNat

/-- `int(s)` as an expression that raises `ValueError` on failure. -/
def intE (s : String) : Except PyErr Int :=
  match pyInt s with
  | some n => .ok n
  | none => .error .valueError

/-- Decimal digit characters of `n`, most significant first, with
structural fuel so that the kernel can evaluate it. -/
def natDigitsAux : Nat → Nat → List Char
  | 0, _ => []
  | fuel + 1, n =>
    if n < 10 then [Char.ofNat (48 + n)]
    else natDigitsAux fuel (n / 10) ++ [Char.ofNat (48 + n % 10)]

/-- Decimal digit characters of `n`, most significant first. -/
def natDigits (n : Nat) : List Char := natDigitsAux (n + 1) n

theorem natDigitsAux_congr :
    ∀ f₁ f₂ n : Nat, n < f₁ → n < f₂ → natDigitsAux f₁ n = natDigitsAux f₂ n := by
  intro f₁
  induction f₁ with
  | zero => intro f₂ n h₁ _; omega
  | succ f ih =>
    intro f₂ n h₁ h₂
    cases f₂ with
    | zero => omega
    | succ g =>
      simp only [natDigitsAux]
      by_cases h10 : n < 10
      · simp [h10]
      · have hdiv : n / 10 < n := Nat.div_lt_self (by omega) (by omega)
        simp only [h10, if_neg]
        rw [ih g (n / 10) (by omega) (by omega)]

/-- The unfolding equation for `natDigits`. -/
theorem natDigits_eq (n : Nat) :
    natDigits n = if n < 10 then [Char.ofNat (48 + n)]
      else natDigits (n / 10) ++ [Char.ofNat (48 + n % 10)] := by
  unfold natDigits
  conv_lhs => rw [natDigitsAux]
  by_cases h10 : n < 10
  · simp [h10]
  · have hdiv : n / 10 < n := Nat.div_lt_self (by omega) (by omega)
    simp only [h10, if_neg]
    rw [natDigitsAux_congr n (n / 10 + 1) (n / 10) (by omega) (by omega)]

/-- Decimal rendering of a natural number. -/
def natToDecStr (n : Nat) : String := ⟨natDigits n⟩

/-- Models Python `str(i)` / `f"{i}"` for an integer. -/
def intToDecStr (i : Int) : String :=
  if i < 0 then "-" ++ natToDecStr (-i).toNat else natToDecStr i.toNat

/-- Models the f-string `f"{m:02d}"` for the month numbers used here. -/
def fmt02 (m : Nat) : String :=
  if m < 10 then "0" ++ natToDecStr m else natToDecStr m

/-- `f"{year}-{month:02d}"` from `parse_date`. -/
def fmtYM (year : Int) (m : Nat) : String :=
  intToDecStr year ++ "-" ++ fmt02 m

/-- `MONTH_MAP` from `main.py`. -/
def MONTH_MAP : List (String × Nat) :=
  [("January", 1), ("February", 2), ("March", 3), ("April", 4),
   ("May", 5), ("June", 6), ("July", 7), ("August", 8),
   ("September", 9), ("October", 10), ("November", 11), ("December", 12)]

/-- `START_YEAR` from `main.py`. -/
def START_YEAR : Int := 1978

/-- `parse_date(month_str, year_str)` from `main.py`:
`MONTH_MAP.get(month_str.strip())`, then `int(year_str.strip())` (which
raises on a non-numeric year), then `f"{year}-{month:02d}"` when the
month lookup succeeded, else `None`. -/
def parse_date (month_str year_str : Option String) : Except PyErr (Option String) :=
  match month_str with
  | none => .error .attributeError
  | some ms =>
    let month := List.lookup (pyStrip ms) MONTH_MAP
    match year_str with
    | none => .error .attributeError
    | some ys =>
      match pyInt (pyStrip ys) with
      | none => .error .valueError
      | some year =>
        match month with
        | some m => .ok (some (fmtYM year m))
        | none => .ok none

/-- `parse_float(value)` from `main.py`, parameterized by the float
conversion `conv` (`none` models `float(...)` raising `ValueError`,
which the function catches). -/
def parse_float (conv : String → Option Rat) (value : Option String) : Option Rat :=
  match value with
  | none => none
  | some v =>
    let v := pyStrip v
    if v = "" ∨ v = "." then none
    else conv v

/-- `parse_float` written in the exception monad, the `try/except
ValueError` translated literally: the conversion's `ValueError` is
caught and turned into `None`. -/
def parse_floatE (conv : String → Option Rat) (value : Option String) :
    Except PyErr (Option Rat) :=
  match value with
  | none => .ok none
  | some v =>
    let v := pyStrip v
    if v = "" ∨ v = "." then .ok none
    else
      match (match conv v with
             | some r => Except.ok r
             | none => Except.error PyErr.valueError : Except PyErr Rat) with
      | .ok r => .ok (some r)
      | .error .valueError => .ok none
      | .error e => .error e

/-- Concrete model of CPython `float(s)` restricted to plain decimal
literals: optional sign, digits, optional fractional part. -/
def pyFloatDec (s : String) : Option Rat :=
  let core (cs : List Char) : Option Rat :=
    let intPart := cs.takeWhile Char.isDigit
    let rest := cs.dropWhile Char.isDigit
    match rest with
    | [] => if intPart.isEmpty then none else some ((decDigitsVal intPart : Nat) : Rat)
    | '.' :: frac =>
      if frac.all Char.isDigit && (!intPart.isEmpty || !frac.isEmpty) then
        some (((decDigitsVal intPart : Nat) : Rat) +
              ((decDigitsVal frac : Nat) : Rat) / ((10 : Rat) ^ frac.length))
      else none
    | _ => none
  match s.toList with
  | '-' :: r => (core r).map (fun x => -x)
  | '+' :: r => core r
  | cs => core cs

/-- Output record of `process_consumer_sentiment`. -/
structure RecCS where
  month : String
  index : Rat
deriving DecidableEq, Repr

/-- Output record of `process_sentiment_components`. -/
structure RecSC where
  month : String
  index_current_conditions : Option Rat
  index_expectations : Option Rat
deriving DecidableEq, Repr

/-- Output record of `process_inflation_expectations`. -/
structure RecIE where
  month : String
  inflation_1yr : Option Rat
  inflation_5yr : Option Rat
deriving DecidableEq, Repr

/-- One iteration of the `process_consumer_sentiment` loop body on a raw
row: `ok none` models `continue`, `ok (some rec)` models an append to
`processed`, `error` models a raised exception. -/
def stepCS (conv : String → Option Rat) (row : Row) : Except PyErr (Option RecCS) :=
  match stripE (pyGetD row "YYYY" "0") with
  | .error e => .error e
  | .ok ys =>
    match intE ys with
    | .error e => .error e
    | .ok year =>
      if year < START_YEAR then .ok none
      else
        match parse_date (pyGetD row "Month" "") (pyGetD row "YYYY" "") with
        | .error e => .error e
        | .ok none => .ok none
        | .ok (some month) =>
          if month = "" then .ok none
          else
            match parse_float conv (pyGet row "ICS_ALL") with
            | none => .ok none
            | some v => .ok (some ⟨month, v⟩)

/-- One iteration of the `process_sentiment_components` loop body. -/
def stepSC (conv : String → Option Rat) (row : Row) : Except PyErr (Option RecSC) :=
  match stripE (pyGetD row "YYYY" "0") with
  | .error e => .error e
  | .ok ys =>
    match intE ys with
    | .error e => .error e
    | .ok year =>
      if year < START_YEAR then .ok none
      else
        match parse_date (pyGetD row "Month" "") (pyGetD row "YYYY" "") with
        | .error e => .error e
        | .ok none => .ok none
        | .ok (some month) =>
          if month = "" then .ok none
          else
            let icc := parse_float conv (pyGet row "ICC")
            let ice := parse_float conv (pyGet row "ICE")
            if icc = none ∧ ice = none then .ok none
            else .ok (some ⟨month, icc, ice⟩)

/-- One iteration of the `process_inflation_expectations` loop body. -/
def stepIE (conv : String → Option Rat) (row : Row) : Except PyErr (Option RecIE) :=
  match stripE (pyGetD row "YYYY" "0") with
  | .error e => .error e
  | .ok ys =>
    match intE ys with
    | .error e => .error e
    | .ok year =>
      if year < START_YEAR then .ok none
      else
        match parse_date (pyGetD row "Month" "") (pyGetD row "YYYY" "") with
        | .error e => .error e
        | .ok none => .ok none
        | .ok (some month) =>
          if month = "" then .ok none
          else
            let px1 := parse_float conv (pyGet row "PX_MD")
            let px5 := parse_float conv (pyGet row "PX5_MD")
            if px1 = none ∧ px5 = none then .ok none
            else .ok (some ⟨month, px1, px5⟩)

/-- The `for row in reader` accumulation loop of
`process_consumer_sentiment` over the parsed rows. -/
def scanCS (conv : String → Option Rat) : List Row → Except PyErr (List RecCS)
  | [] => .ok []
  | r :: rs =>
    match stepCS conv r with
    | .error e => .error e
    | .ok o =>
      match scanCS conv rs with
      | .error e => .error e
      | .ok rest =>
        match o with
        | none => .ok rest
        | some rec => .ok (rec :: rest)

/-- The accumulation loop of `process_sentiment_components`. -/
def scanSC (conv : String → Option Rat) : List Row → Except PyErr (List RecSC)
  | [] => .ok []
  | r :: rs =>
    match stepSC conv r with
    | .error e => .error e
    | .ok o =>
      match scanSC conv rs with
      | .error e => .error e
      | .ok rest =>
        match o with
        | none => .ok rest
        | some rec => .ok (rec :: rest)

/-- The accumulation loop of `process_inflation_expectations`. -/
def scanIE (conv : String → Option Rat) : List Row → Except PyErr (List RecIE)
  | [] => .ok []
  | r :: rs =>
    match stepIE conv r with
    | .error e => .error e
    | .ok o =>
      match scanIE conv rs with
      | .error e => .error e
      | .ok rest =>
        match o with
        | none => .ok rest
        | some rec => .ok (rec :: rest)

/-- Validator schema value, the literal dictionaries of `test.py`:
`{columns, not_null, min_rows}`. -/
structure Schema where
  columns : List (String × String)
  not_null : List String
  min_rows : Nat

/-- Schema passed to `validate` by `test_consumer_sentiment`. -/
def consumer_sentiment_schema : Schema :=
  { columns := [("month", "string"), ("index", "double")],
    not_null := ["month", "index"],
    min_rows := 100 }

/-- Schema passed to `validate` by `test_sentiment_components`. -/
def sentiment_components_schema : Schema :=
  { columns := [("month", "string"), ("index_current_conditions", "double"),
                ("index_expectations", "double")],
    not_null := ["month"],
    min_rows := 100 }

/-- Schema passed to `validate` by `test_inflation_expectations`. -/
def inflation_expectations_schema : Schema :=
  { columns := [("month", "string"), ("inflation_1yr", "double"),
                ("inflation_5yr", "double")],
    not_null := ["month"],
    min_rows := 100 }

/-- Modelled from the spec: the row-count rule of `validate` from the
external `subsets_utils` library (not under `src/`) — "Row count must be
≥ the declared minimum"; a violation is a validation failure. -/
def validateMinRows (nrows minRows : Nat) : Except PyErr Unit :=
  if nrows < minRows then .error (.validationError "insufficient rows") else .ok ()

/-- A string matching the canonical `YYYY-MM` pattern: exactly four
decimal digits, a dash, and a two-digit month between 01 and 12. -/
def isValidMonthStr (s : String) : Bool :=
  match s.toList with
  | y1 :: y2 :: y3 :: y4 :: dash :: m1 :: m2 :: [] =>
    y1.isDigit && y2.isDigit && y3.isDigit && y4.isDigit && (dash == '-') &&
      m1.isDigit && m2.isDigit &&
      decide (1 ≤ 10 * (m1.toNat - 48) + (m2.toNat - 48)) &&
      decide (10 * (m1.toNat - 48) + (m2.toNat - 48) ≤ 12)
  | _ => false

/-- Modelled from the spec: `assert_valid_month` from the external
`subsets_utils.testing` module (not under `src/`) — "every value in the
`month` column must match the canonical `YYYY-MM` pattern". -/
def assertValidMonth (months : List String) : Except PyErr Unit :=
  if months.all isValidMonthStr then .ok () else .error (.validationError "invalid month")

/-- Modelled from the spec: `test_consumer_sentiment` from `test.py` —
structural validation (of which only the row-count rule is expressible
on the typed record list; column types and not-null hold by
construction) followed by the semantic month check. -/
def validateCS (tbl : List RecCS) : Except PyErr Unit :=
  match validateMinRows tbl.length consumer_sentiment_schema.min_rows with
  | .error e => .error e
  | .ok _ => assertValidMonth (tbl.map RecCS.month)

/-- Modelled from the spec: `test_sentiment_components` from `test.py`. -/
def validateSC (tbl : List RecSC) : Except PyErr Unit :=
  match validateMinRows tbl.length sentiment_components_schema.min_rows with
  | .error e => .error e
  | .ok _ => assertValidMonth (tbl.map RecSC.month)

/-- Modelled from the spec: `test_inflation_expectations` from `test.py`. -/
def validateIE (tbl : List RecIE) : Except PyErr Unit :=
  match validateMinRows tbl.length inflation_expectations_schema.min_rows with
  | .error e => .error e
  | .ok _ => assertValidMonth (tbl.map RecIE.month)

/-- `process_consumer_sentiment(csv_text)` on the parsed rows: scan,
`raise ValueError("No consumer sentiment data found")` on an empty
accumulator, then table validation; the validated record list models
the uploaded table. -/
def processCS (conv : String → Option Rat) (rows : List Row) : Except PyErr (List RecCS) :=
  match scanCS conv rows with
  | .error e => .error e
  | .ok processed =>
    if processed.isEmpty then .error (.noDataError "No consumer sentiment data found")
    else
      match validateCS processed with
      | .error e => .error e
      | .ok _ => .ok processed

/-- `process_sentiment_components(csv_text)` on the parsed rows. -/
def processSC (conv : String → Option Rat) (rows : List Row) : Except PyErr (List RecSC) :=
  match scanSC conv rows with
  | .error e => .error e
  | .ok processed =>
    if processed.isEmpty then .error (.noDataError "No sentiment components data found")
    else
      match validateSC processed with
      | .error e => .error e
      | .ok _ => .ok processed

/-- `process_inflation_expectations(csv_text)` on the parsed rows. -/
def processIE (conv : String → Option Rat) (rows : List Row) : Except PyErr (List RecIE) :=
  match scanIE conv rows with
  | .error e => .error e
  | .ok processed =>
    if processed.isEmpty then .error (.noDataError "No inflation expectations data found")
    else
      match validateIE processed with
      | .error e => .error e
      | .ok _ => .ok processed

/-- The value a loop iteration contributes when it does not raise:
`some rec` for an appended record, `none` for a skipped row. -/
def stepVal {α : Type} (st : Row → Except PyErr (Option α)) (r : Row) : Option α :=
  match st r with
  | .ok o => o
  | .error _ => none

/-- The common accumulation-loop shape shared by the three scans,
abstracted over the loop body; used to state and prove properties of
`scanCS`, `scanSC` and `scanIE` once. -/
def scanLoop {α : Type} (st : Row → Except PyErr (Option α)) :
    List Row → Except PyErr (List α)
  | [] => .ok []
  | r :: rs =>
    match st r with
    | .error e => .error e
    | .ok o =>
      match scanLoop st rs with
      | .error e => .error e
      | .ok rest =>
        match o with
        | none => .ok rest
        | some rec => .ok (rec :: rest)

/-- Big-step relational semantics of the accumulation loop: one
derivation per execution of the `for row in reader` loop. -/
inductive ScanRel {α : Type} (st : Row → Except PyErr (Option α)) :
    List Row → Except PyErr (List α) → Prop where
  | nil : ScanRel st [] (.ok [])
  | errHead {r : Row} {rs : List Row} {e : PyErr} :
      st r = .error e → ScanRel st (r :: rs) (.error e)
  | errTail {r : Row} {rs : List Row} {o : Option α} {e : PyErr} :
      st r = .ok o → ScanRel st rs (.error e) → ScanRel st (r :: rs) (.error e)
  | skip {r : Row} {rs : List Row} {l : List α} :
      st r = .ok none → ScanRel st rs (.ok l) → ScanRel st (r :: rs) (.ok l)
  | emit {r : Row} {rs : List Row} {rec : α} {l : List α} :
      st r = .ok (some rec) → ScanRel st rs (.ok l) → ScanRel st (r :: rs) (.ok (rec :: l))

/-- The shape every emitted `month` value has: the row's parsed year
(at least `START_YEAR`) rendered in plain decimal, a dash, and a
zero-padded month number between 01 and 12; for years up to 9999 this
matches the canonical `YYYY-MM` pattern. -/
def MonthForm (s : String) : Prop :=
  ∃ (y : Int) (m : Nat), START_YEAR ≤ y ∧ 1 ≤ m ∧ m ≤ 12 ∧
    s = fmtYM y m ∧ (y ≤ 9999 → isValidMonthStr s = true)

/-- A trivial float conversion used for concrete witness rows. -/
def convOne : String → Option Rat := fun _ => some 1

/-- Concrete fixture rows for witnesses and counterexamples. -/
def rowGood : Row := [("YYYY", some "2020"), ("Month", some "January"), ("ICS_ALL", some "95.5"),
  ("ICC", some "1"), ("ICE", some "1"), ("PX_MD", some "1"), ("PX5_MD", some "1")]

/-- A fixture row whose year column holds a non-numeric string. -/
def rowBadYear : Row := [("YYYY", some "abc"), ("Month", some "March"), ("ICS_ALL", some "95.5"),
  ("ICC", some "1"), ("ICE", some "1"), ("PX_MD", some "1"), ("PX5_MD", some "1")]

/-- A fixture row with a pre-cutoff year. -/
def rowOld : Row := [("YYYY", some "1975"), ("Month", some "June"), ("ICS_ALL", some "80"),
  ("ICC", some "1"), ("ICE", some "1"), ("PX_MD", some "1"), ("PX5_MD", some "1")]

theorem scanCS_eq_loop (conv : String → Option Rat) (rows : List Row) :
    scanCS conv rows = scanLoop (stepCS conv) rows := by
  induction rows with
  | nil => rfl
  | cons r rs ih =>
    simp only [scanCS, scanLoop]
    rw [ih]
    cases stepCS conv r with
    | error e => rfl
    | ok o =>
      cases scanLoop (stepCS conv) rs with
      | error e => rfl
      | ok rest => cases o <;> rfl

theorem scanSC_eq_loop (conv : String → Option Rat) (rows : List Row) :
    scanSC conv rows = scanLoop (stepSC conv) rows := by
  induction rows with
  | nil => rfl
  | cons r rs ih =>
    simp only [scanSC, scanLoop]
    rw [ih]
    cases stepSC conv r with
    | error e => rfl
    | ok o =>
      cases scanLoop (stepSC conv) rs with
      | error e => rfl
      | ok rest => cases o <;> rfl

theorem scanIE_eq_loop (conv : String → Option Rat) (rows : List Row) :
    scanIE conv rows = scanLoop (stepIE conv) rows := by
  induction rows with
  | nil => rfl
  | cons r rs ih =>
    simp only [scanIE, scanLoop]
    rw [ih]
    cases stepIE conv r with
    | error e => rfl
    | ok o =>
      cases scanLoop (stepIE conv) rs with
      | error e => rfl
      | ok rest => cases o <;> rfl

/-- If the loop completes without an exception, its output is exactly
the in-order `filterMap` of the per-row results. -/
theorem scanLoop_ok_filterMap {α : Type} (st : Row → Except PyErr (Option α)) :
    ∀ (rows : List Row) (l : List α),
      scanLoop st rows = .ok l → l = rows.filterMap (stepVal st) := by
  intro rows
  induction rows with
  | nil =>
    intro l h
    simp only [scanLoop] at h
    cases h
    rfl
  | cons r rs ih =>
    intro l h
    simp only [scanLoop] at h
    cases hst : st r with
    | error e => rw [hst] at h; cases h
    | ok o =>
      rw [hst] at h
      cases hrest : scanLoop st rs with
      | error e => rw [hrest] at h; cases h
      | ok rest =>
        rw [hrest] at h
        have hr := ih rest hrest
        cases o with
        | none =>
          cases h
          simp [List.filterMap_cons, stepVal, hst, hr]
        | some rec =>
          cases h
          simp [List.filterMap_cons, stepVal, hst, hr]

/-- The loop function realizes the big-step relation. -/
theorem scanRel_of_loop {α : Type} (st : Row → Except PyErr (Option α)) :
    ∀ rows : List Row, ScanRel st rows (scanLoop st rows) := by
  intro rows
  induction rows with
  | nil => exact .nil
  | cons r rs ih =>
    simp only [scanLoop]
    cases hst : st r with
    | error e => exact .errHead hst
    | ok o =>
      cases hrest : scanLoop st rs with
      | error e =>
        rw [hrest] at ih
        exact .errTail hst ih
      | ok rest =>
        rw [hrest] at ih
        cases o with
        | none => exact .skip hst ih
        | some rec => exact .emit hst ih

/-- The big-step relation is deterministic. -/
theorem scanRel_det {α : Type} (st : Row → Except PyErr (Option α)) :
    ∀ (rows : List Row) (o₁ o₂ : Except PyErr (List α)),
      ScanRel st rows o₁ → ScanRel st rows o₂ → o₁ = o₂ := by
  intro rows o₁ o₂ h₁ h₂
  induction h₁ generalizing o₂ with
  | nil => cases h₂; rfl
  | errHead hst =>
    cases h₂ <;> simp_all
  | errTail hst htail ih =>
    cases h₂ with
    | errHead hst' => simp_all
    | errTail hst' htail' => exact ih _ htail'
    | skip hst' htail' => exact ih _ htail'
    | emit hst' htail' => exact Except.noConfusion (ih _ htail')
  | skip hst htail ih =>
    cases h₂ with
    | errHead hst' => simp_all
    | errTail hst' htail' => exact ih _ htail'
    | skip hst' htail' => exact ih _ htail'
    | emit hst' htail' => simp_all
  | emit hst htail ih =>
    cases h₂ with
    | errHead hst' => simp_all
    | errTail hst' htail' => exact Except.noConfusion (ih _ htail')
    | skip hst' htail' => simp_all
    | emit hst' htail' =>
      rw [hst] at hst'
      injection hst' with h
      injection h with h2
      subst h2
      cases ih _ htail'
      rfl

/-- Every month number `MONTH_MAP` can return lies between 1 and 12. -/
theorem month_map_bounds (s : String) (m : Nat)
    (h : List.lookup s MONTH_MAP = some m) : 1 ≤ m ∧ m ≤ 12 := by
  simp only [MONTH_MAP, List.lookup] at h
  repeat' split at h
  all_goals simp_all
  all_goals omega

/-- `parse_floatE` never propagates an exception: the `try/except`
around the float conversion makes `parse_float` total, and the two
presentations agree. -/
theorem parse_floatE_ok (conv : String → Option Rat) (value : Option String) :
    parse_floatE conv value = .ok (parse_float conv value) := by
  cases value with
  | none => rfl
  | some v =>
    simp only [parse_floatE, parse_float]
    by_cases h : pyStrip v = "" ∨ pyStrip v = "."
    · simp [h]
    · simp only [h, if_neg]
      cases conv (pyStrip v) <;> simp

/-- A formatted `f"{year}-{month:02d}"` string is never empty. -/
theorem fmtYM_ne_empty (y : Int) (m : Nat) : fmtYM y m ≠ "" := by
  intro h
  have hd := congrArg (fun s => s.data.length) h
  simp only [fmtYM, String.data_append, List.length_append,
    List.length_cons, List.length_nil] at hd
  omega

/-- Inversion of the year/month prefix shared by the three loop bodies:
when the year guard passes with value `year` and `parse_date` returns a
month string, the `YYYY` column is present, `parse_date` re-parses the
same year text to the same `year`, and the month string is
`f"{year}-{m:02d}"` for some month number `m` found in `MONTH_MAP`. -/
theorem month_of_guards (row : Row) (ys : String) (year : Int) (month : String)
    (h1 : stripE (pyGetD row "YYYY" "0") = .ok ys)
    (h2 : pyInt ys = some year)
    (h3 : ¬year < START_YEAR)
    (h4 : parse_date (pyGetD row "Month" "") (pyGetD row "YYYY" "") = .ok (some month)) :
    ∃ m : Nat, 1 ≤ m ∧ m ≤ 12 ∧ month = fmtYM year m := by
  cases hy : List.lookup "YYYY" row with
  | none =>
    exfalso
    simp only [pyGetD, hy, stripE] at h1
    have hys : ys = "0" := by
      cases h1
      rfl
    rw [hys] at h2
    have : year = 0 := by
      have : pyInt "0" = some 0 := by decide
      rw [this] at h2
      exact (Option.some.inj h2).symm
    rw [this] at h3
    exact h3 (by decide)
  | some v =>
    cases v with
    | none =>
      exfalso
      simp only [pyGetD, hy, stripE] at h1
      exact Except.noConfusion h1
    | some sYear =>
      have hys : ys = pyStrip sYear := by
        simp only [pyGetD, hy, stripE] at h1
        cases h1
        rfl
      cases hMon : pyGetD row "Month" "" with
      | none =>
        exfalso
        rw [hMon] at h4
        simp [parse_date] at h4
      | some ms =>
        rw [hMon] at h4
        have hYv : pyGetD row "YYYY" "" = some sYear := by
          simp [pyGetD, hy]
        rw [hYv] at h4
        simp only [parse_date] at h4
        rw [← hys, h2] at h4
        cases hLk : List.lookup (pyStrip ms) MONTH_MAP with
        | none =>
          rw [hLk] at h4
          simp at h4
        | some m =>
          rw [hLk] at h4
          have hm := month_map_bounds _ _ hLk
          refine ⟨m, hm.1, hm.2, ?_⟩
          simpa using h4.symm

/-- Every character `natDigits` produces is a decimal digit. -/
theorem natDigits_all_digit : ∀ n : Nat, ∀ c ∈ natDigits n, c.isDigit = true := by
  intro n
  induction n using Nat.strong_induction_on with
  | _ n ih =>
    intro c hc
    rw [natDigits_eq] at hc
    have hb : ∀ k : Nat, k < 10 → (Char.ofNat (48 + k)).isDigit = true := by decide
    by_cases h10 : n < 10
    · rw [if_pos h10] at hc
      simp only [List.mem_singleton] at hc
      subst hc
      exact hb n h10
    · rw [if_neg h10] at hc
      rcases List.mem_append.mp hc with h | h
      · exact ih (n / 10) (Nat.div_lt_self (by omega) (by omega)) c h
      · simp only [List.mem_singleton] at h
        subst h
        exact hb (n % 10) (Nat.mod_lt _ (by omega))

theorem natDigits_length_small (n : Nat) (h : n < 10) : (natDigits n).length = 1 := by
  rw [natDigits_eq, if_pos h]; rfl

theorem natDigits_length_step (n : Nat) (h : ¬n < 10) :
    (natDigits n).length = (natDigits (n / 10)).length + 1 := by
  rw [natDigits_eq, if_neg h, List.length_append]; rfl

/-- A number between 1000 and 9999 has exactly four decimal digits. -/
theorem natDigits_length_four (n : Nat) (h1 : 1000 ≤ n) (h2 : n ≤ 9999) :
    (natDigits n).length = 4 := by
  have e1 := natDigits_length_step n (by omega)
  have e2 := natDigits_length_step (n / 10) (by omega)
  have e3 := natDigits_length_step (n / 10 / 10) (by omega)
  have e4 := natDigits_length_small (n / 10 / 10 / 10) (by omega)
  omega

theorem list_eq_four {α : Type} (l : List α) (h : l.length = 4) :
    ∃ a b c d, l = [a, b, c, d] := by
  cases l with
  | nil => simp at h
  | cons a t =>
    cases t with
    | nil => simp at h
    | cons b t =>
      cases t with
      | nil => simp at h
      | cons c t =>
        cases t with
        | nil => simp at h
        | cons d t =>
          cases t with
          | nil => exact ⟨a, b, c, d, rfl⟩
          | cons e t => simp at h

/-- For month numbers 1..12, `f"{m:02d}"` is two digit characters whose
value is back between 1 and 12. -/
theorem fmt02_digits (m : Nat) (h1 : 1 ≤ m) (h2 : m ≤ 12) :
    ∃ c1 c2 : Char, (fmt02 m).data = [c1, c2] ∧ c1.isDigit = true ∧ c2.isDigit = true ∧
      1 ≤ 10 * (c1.toNat - 48) + (c2.toNat - 48) ∧
      10 * (c1.toNat - 48) + (c2.toNat - 48) ≤ 12 := by
  interval_cases m
  · exact ⟨'0', '1', by decide, by decide, by decide, by decide, by decide⟩
  · exact ⟨'0', '2', by decide, by decide, by decide, by decide, by decide⟩
  · exact ⟨'0', '3', by decide, by decide, by decide, by decide, by decide⟩
  · exact ⟨'0', '4', by decide, by decide, by decide, by decide, by decide⟩
  · exact ⟨'0', '5', by decide, by decide, by decide, by decide, by decide⟩
  · exact ⟨'0', '6', by decide, by decide, by decide, by decide, by decide⟩
  · exact ⟨'0', '7', by decide, by decide, by decide, by decide, by decide⟩
  · exact ⟨'0', '8', by decide, by decide, by decide, by decide, by decide⟩
  · exact ⟨'0', '9', by decide, by decide, by decide, by decide, by decide⟩
  · exact ⟨'1', '0', by decide, by decide, by decide, by decide, by decide⟩
  · exact ⟨'1', '1', by decide, by decide, by decide, by decide, by decide⟩
  · exact ⟨'1', '2', by decide, by decide, by decide, by decide, by decide⟩

/-- A `f"{year}-{month:02d}"` string for an in-range year and month
matches the canonical `YYYY-MM` pattern. -/
theorem isValidMonthStr_fmtYM (y : Int) (m : Nat)
    (hy1 : START_YEAR ≤ y) (hy2 : y ≤ 9999) (hm1 : 1 ≤ m) (hm2 : m ≤ 12) :
    isValidMonthStr (fmtYM y m) = true := by
  have hSY : START_YEAR = (1978 : Int) := rfl
  have hy0 : ¬y < 0 := by omega
  have hn1 : 1000 ≤ y.toNat := by omega
  have hn2 : y.toNat ≤ 9999 := by omega
  obtain ⟨a, b, c, d, habcd⟩ :=
    list_eq_four (natDigits y.toNat) (natDigits_length_four y.toNat hn1 hn2)
  have hyd : (intToDecStr y).data = [a, b, c, d] := by
    rw [intToDecStr, if_neg hy0]
    exact habcd
  have ha : a.isDigit = true := natDigits_all_digit y.toNat a (by rw [habcd]; simp)
  have hb : b.isDigit = true := natDigits_all_digit y.toNat b (by rw [habcd]; simp)
  have hc : c.isDigit = true := natDigits_all_digit y.toNat c (by rw [habcd]; simp)
  have hd : d.isDigit = true := natDigits_all_digit y.toNat d (by rw [habcd]; simp)
  obtain ⟨c1, c2, hf, hf1, hf2, hf3, hf4⟩ := fmt02_digits m hm1 hm2
  have hdata : (fmtYM y m).data = a :: b :: c :: d :: '-' :: c1 :: c2 :: [] := by
    simp only [fmtYM, String.data_append, hyd, hf]
    rfl
  simp only [isValidMonthStr, String.toList, hdata]
  simp [ha, hb, hc, hd, hf1, hf2, hf3, hf4]

theorem intE_ok_inv (s : String) (y : Int) (h : intE s = .ok y) : pyInt s = some y := by
  simp only [intE] at h
  cases hp : pyInt s with
  | none => rw [hp] at h; exact Except.noConfusion h
  | some n =>
    rw [hp] at h
    injection h with hn
    rw [hn]

/-- On a row whose year guard passes with `year` and whose month
parses, `process_consumer_sentiment` emits a record exactly when
`parse_float` of `ICS_ALL` is non-null, with that value. -/
theorem stepCS_of_guards (conv : String → Option Rat) (row : Row) (ys : String)
    (year : Int) (month : String)
    (h1 : stripE (pyGetD row "YYYY" "0") = .ok ys)
    (h2 : pyInt ys = some year)
    (h3 : ¬year < START_YEAR)
    (h4 : parse_date (pyGetD row "Month" "") (pyGetD row "YYYY" "") = .ok (some month)) :
    stepCS conv row =
      .ok ((parse_float conv (pyGet row "ICS_ALL")).map (fun v => ⟨month, v⟩)) := by
  obtain ⟨m, hm1, hm2, hmonth⟩ := month_of_guards row ys year month h1 h2 h3 h4
  have hne : month ≠ "" := by rw [hmonth]; exact fmtYM_ne_empty year m
  have hIntE : intE ys = .ok year := by simp only [intE, h2]
  simp only [stepCS, h1, hIntE, h4]
  rw [if_neg h3, if_neg hne]
  cases parse_float conv (pyGet row "ICS_ALL") <;> rfl

/-- Same for `process_sentiment_components`: a record is emitted unless
both `ICC` and `ICE` parse to null, keeping each parsed option. -/
theorem stepSC_of_guards (conv : String → Option Rat) (row : Row) (ys : String)
    (year : Int) (month : String)
    (h1 : stripE (pyGetD row "YYYY" "0") = .ok ys)
    (h2 : pyInt ys = some year)
    (h3 : ¬year < START_YEAR)
    (h4 : parse_date (pyGetD row "Month" "") (pyGetD row "YYYY" "") = .ok (some month)) :
    stepSC conv row =
      .ok (if parse_float conv (pyGet row "ICC") = none ∧
              parse_float conv (pyGet row "ICE") = none then none
           else some ⟨month, parse_float conv (pyGet row "ICC"),
                      parse_float conv (pyGet row "ICE")⟩) := by
  obtain ⟨m, hm1, hm2, hmonth⟩ := month_of_guards row ys year month h1 h2 h3 h4
  have hne : month ≠ "" := by rw [hmonth]; exact fmtYM_ne_empty year m
  have hIntE : intE ys = .ok year := by simp only [intE, h2]
  simp only [stepSC, h1, hIntE, h4]
  rw [if_neg h3, if_neg hne]
  split <;> rfl

/-- Same for `process_inflation_expectations` with `PX_MD` / `PX5_MD`. -/
theorem stepIE_of_guards (conv : String → Option Rat) (row : Row) (ys : String)
    (year : Int) (month : String)
    (h1 : stripE (pyGetD row "YYYY" "0") = .ok ys)
    (h2 : pyInt ys = some year)
    (h3 : ¬year < START_YEAR)
    (h4 : parse_date (pyGetD row "Month" "") (pyGetD row "YYYY" "") = .ok (some month)) :
    stepIE conv row =
      .ok (if parse_float conv (pyGet row "PX_MD") = none ∧
              parse_float conv (pyGet row "PX5_MD") = none then none
           else some ⟨month, parse_float conv (pyGet row "PX_MD"),
                      parse_float conv (pyGet row "PX5_MD")⟩) := by
  obtain ⟨m, hm1, hm2, hmonth⟩ := month_of_guards row ys year month h1 h2 h3 h4
  have hne : month ≠ "" := by rw [hmonth]; exact fmtYM_ne_empty year m
  have hIntE : intE ys = .ok year := by simp only [intE, h2]
  simp only [stepIE, h1, hIntE, h4]
  rw [if_neg h3, if_neg hne]
  split <;> rfl

theorem stepCS_skip_old (conv : String → Option Rat) (row : Row) (ys : String) (year : Int)
    (h1 : stripE (pyGetD row "YYYY" "0") = .ok ys)
    (h2 : pyInt ys = some year) (h3 : year < START_YEAR) :
    stepCS conv row = .ok none := by
  have hIntE : intE ys = .ok year := by simp only [intE, h2]
  simp only [stepCS, h1, hIntE]
  rw [if_pos h3]

theorem stepSC_skip_old (conv : String → Option Rat) (row : Row) (ys : String) (year : Int)
    (h1 : stripE (pyGetD row "YYYY" "0") = .ok ys)
    (h2 : pyInt ys = some year) (h3 : year < START_YEAR) :
    stepSC conv row = .ok none := by
  have hIntE : intE ys = .ok year := by simp only [intE, h2]
  simp only [stepSC, h1, hIntE]
  rw [if_pos h3]

theorem stepIE_skip_old (conv : String → Option Rat) (row : Row) (ys : String) (year : Int)
    (h1 : stripE (pyGetD row "YYYY" "0") = .ok ys)
    (h2 : pyInt ys = some year) (h3 : year < START_YEAR) :
    stepIE conv row = .ok none := by
  have hIntE : intE ys = .ok year := by simp only [intE, h2]
  simp only [stepIE, h1, hIntE]
  rw [if_pos h3]

theorem stepCS_raise_badYear (conv : String → Option Rat) (row : Row) (s : String)
    (hy : List.lookup "YYYY" row = some (some s)) (hbad : pyInt (pyStrip s) = none) :
    stepCS conv row = .error .valueError := by
  have h1 : stripE (pyGetD row "YYYY" "0") = .ok (pyStrip s) := by
    simp [pyGetD, hy, stripE]
  have hIntE : intE (pyStrip s) = .error .valueError := by simp only [intE, hbad]
  simp only [stepCS, h1, hIntE]

theorem stepSC_raise_badYear (conv : String → Option Rat) (row : Row) (s : String)
    (hy : List.lookup "YYYY" row = some (some s)) (hbad : pyInt (pyStrip s) = none) :
    stepSC conv row = .error .valueError := by
  have h1 : stripE (pyGetD row "YYYY" "0") = .ok (pyStrip s) := by
    simp [pyGetD, hy, stripE]
  have hIntE : intE (pyStrip s) = .error .valueError := by simp only [intE, hbad]
  simp only [stepSC, h1, hIntE]

theorem stepIE_raise_badYear (conv : String → Option Rat) (row : Row) (s : String)
    (hy : List.lookup "YYYY" row = some (some s)) (hbad : pyInt (pyStrip s) = none) :
    stepIE conv row = .error .valueError := by
  have h1 : stripE (pyGetD row "YYYY" "0") = .ok (pyStrip s) := by
    simp [pyGetD, hy, stripE]
  have hIntE : intE (pyStrip s) = .error .valueError := by simp only [intE, hbad]
  simp only [stepIE, h1, hIntE]

/-- Inversion: an emitted consumer-sentiment record comes from a row
that passed the year guard and the month parse. -/
theorem stepCS_emit_inv (conv : String → Option Rat) (row : Row) (rec : RecCS)
    (h : stepCS conv row = .ok (some rec)) :
    ∃ (ys : String) (year : Int) (month : String),
      stripE (pyGetD row "YYYY" "0") = .ok ys ∧ pyInt ys = some year ∧
      ¬year < START_YEAR ∧
      parse_date (pyGetD row "Month" "") (pyGetD row "YYYY" "") = .ok (some month) ∧
      rec.month = month := by
  simp only [stepCS] at h
  cases h1 : stripE (pyGetD row "YYYY" "0") with
  | error e => rw [h1] at h; dsimp only [] at h; exact Except.noConfusion h
  | ok ys =>
    rw [h1] at h
    dsimp only [] at h
    cases h2 : intE ys with
    | error e => rw [h2] at h; dsimp only [] at h; exact Except.noConfusion h
    | ok year =>
      rw [h2] at h
      try dsimp only [] at h
      by_cases h3 : year < START_YEAR
      · rw [if_pos h3] at h; simp at h
      · rw [if_neg h3] at h
        cases h4 : parse_date (pyGetD row "Month" "") (pyGetD row "YYYY" "") with
        | error e => rw [h4] at h; dsimp only [] at h; exact Except.noConfusion h
        | ok mo =>
          rw [h4] at h
          cases mo with
          | none => simp at h
          | some month =>
            dsimp only [] at h
            by_cases h5 : month = ""
            · rw [if_pos h5] at h; simp at h
            · rw [if_neg h5] at h
              cases h6 : parse_float conv (pyGet row "ICS_ALL") with
              | none => rw [h6] at h; dsimp only [] at h; simp at h
              | some v =>
                rw [h6] at h
                dsimp only [] at h
                injection h with hh
                injection hh with hrec
                exact ⟨ys, year, month, rfl, intE_ok_inv ys year h2, h3, rfl,
                  by rw [← hrec]⟩

/-- Inversion for `process_sentiment_components`. -/
theorem stepSC_emit_inv (conv : String → Option Rat) (row : Row) (rec : RecSC)
    (h : stepSC conv row = .ok (some rec)) :
    ∃ (ys : String) (year : Int) (month : String),
      stripE (pyGetD row "YYYY" "0") = .ok ys ∧ pyInt ys = some year ∧
      ¬year < START_YEAR ∧
      parse_date (pyGetD row "Month" "") (pyGetD row "YYYY" "") = .ok (some month) ∧
      rec.month = month := by
  simp only [stepSC] at h
  cases h1 : stripE (pyGetD row "YYYY" "0") with
  | error e => rw [h1] at h; dsimp only [] at h; exact Except.noConfusion h
  | ok ys =>
    rw [h1] at h
    dsimp only [] at h
    cases h2 : intE ys with
    | error e => rw [h2] at h; dsimp only [] at h; exact Except.noConfusion h
    | ok year =>
      rw [h2] at h
      try dsimp only [] at h
      by_cases h3 : year < START_YEAR
      · rw [if_pos h3] at h; simp at h
      · rw [if_neg h3] at h
        cases h4 : parse_date (pyGetD row "Month" "") (pyGetD row "YYYY" "") with
        | error e => rw [h4] at h; dsimp only [] at h; exact Except.noConfusion h
        | ok mo =>
          rw [h4] at h
          cases mo with
          | none => simp at h
          | some month =>
            dsimp only [] at h
            by_cases h5 : month = ""
            · rw [if_pos h5] at h; simp at h
            · rw [if_neg h5] at h
              by_cases h6 : parse_float conv (pyGet row "ICC") = none ∧
                  parse_float conv (pyGet row "ICE") = none
              · rw [if_pos h6] at h; simp at h
              · rw [if_neg h6] at h
                injection h with hh
                injection hh with hrec
                exact ⟨ys, year, month, rfl, intE_ok_inv ys year h2, h3, rfl,
                  by rw [← hrec]⟩

/-- Inversion for `process_inflation_expectations`. -/
theorem stepIE_emit_inv (conv : String → Option Rat) (row : Row) (rec : RecIE)
    (h : stepIE conv row = .ok (some rec)) :
    ∃ (ys : String) (year : Int) (month : String),
      stripE (pyGetD row "YYYY" "0") = .ok ys ∧ pyInt ys = some year ∧
      ¬year < START_YEAR ∧
      parse_date (pyGetD row "Month" "") (pyGetD row "YYYY" "") = .ok (some month) ∧
      rec.month = month := by
  simp only [stepIE] at h
  cases h1 : stripE (pyGetD row "YYYY" "0") with
  | error e => rw [h1] at h; dsimp only [] at h; exact Except.noConfusion h
  | ok ys =>
    rw [h1] at h
    dsimp only [] at h
    cases h2 : intE ys with
    | error e => rw [h2] at h; dsimp only [] at h; exact Except.noConfusion h
    | ok year =>
      rw [h2] at h
      try dsimp only [] at h
      by_cases h3 : year < START_YEAR
      · rw [if_pos h3] at h; simp at h
      · rw [if_neg h3] at h
        cases h4 : parse_date (pyGetD row "Month" "") (pyGetD row "YYYY" "") with
        | error e => rw [h4] at h; dsimp only [] at h; exact Except.noConfusion h
        | ok mo =>
          rw [h4] at h
          cases mo with
          | none => simp at h
          | some month =>
            dsimp only [] at h
            by_cases h5 : month = ""
            · rw [if_pos h5] at h; simp at h
            · rw [if_neg h5] at h
              by_cases h6 : parse_float conv (pyGet row "PX_MD") = none ∧
                  parse_float conv (pyGet row "PX5_MD") = none
              · rw [if_pos h6] at h; simp at h
              · rw [if_neg h6] at h
                injection h with hh
                injection hh with hrec
                exact ⟨ys, year, month, rfl, intE_ok_inv ys year h2, h3, rfl,
                  by rw [← hrec]⟩

theorem stepCS_month_form (conv : String → Option Rat) (row : Row) (rec : RecCS)
    (h : stepCS conv row = .ok (some rec)) : MonthForm rec.month := by
  obtain ⟨ys, year, month, h1, h2, h3, h4, hrm⟩ := stepCS_emit_inv conv row rec h
  obtain ⟨m, hm1, hm2, hmonth⟩ := month_of_guards row ys year month h1 h2 h3 h4
  refine ⟨year, m, not_lt.mp h3, hm1, hm2, by rw [hrm, hmonth], ?_⟩
  intro hy
  rw [hrm, hmonth]
  exact isValidMonthStr_fmtYM year m (not_lt.mp h3) hy hm1 hm2

theorem stepSC_month_form (conv : String → Option Rat) (row : Row) (rec : RecSC)
    (h : stepSC conv row = .ok (some rec)) : MonthForm rec.month := by
  obtain ⟨ys, year, month, h1, h2, h3, h4, hrm⟩ := stepSC_emit_inv conv row rec h
  obtain ⟨m, hm1, hm2, hmonth⟩ := month_of_guards row ys year month h1 h2 h3 h4
  refine ⟨year, m, not_lt.mp h3, hm1, hm2, by rw [hrm, hmonth], ?_⟩
  intro hy
  rw [hrm, hmonth]
  exact isValidMonthStr_fmtYM year m (not_lt.mp h3) hy hm1 hm2

theorem stepIE_month_form (conv : String → Option Rat) (row : Row) (rec : RecIE)
    (h : stepIE conv row = .ok (some rec)) : MonthForm rec.month := by
  obtain ⟨ys, year, month, h1, h2, h3, h4, hrm⟩ := stepIE_emit_inv conv row rec h
  obtain ⟨m, hm1, hm2, hmonth⟩ := month_of_guards row ys year month h1 h2 h3 h4
  refine ⟨year, m, not_lt.mp h3, hm1, hm2, by rw [hrm, hmonth], ?_⟩
  intro hy
  rw [hrm, hmonth]
  exact isValidMonthStr_fmtYM year m (not_lt.mp h3) hy hm1 hm2

/-- Lift a per-step month property through a completed scan. -/
theorem scanLoop_month_form {α : Type} (st : Row → Except PyErr (Option α))
    (monthOf : α → String)
    (hstep : ∀ r rec, st r = .ok (some rec) → MonthForm (monthOf rec)) :
    ∀ (rows : List Row) (l : List α), scanLoop st rows = .ok l →
      ∀ rec ∈ l, MonthForm (monthOf rec) := by
  intro rows l hok rec hmem
  have hfm := scanLoop_ok_filterMap st rows l hok
  subst hfm
  obtain ⟨r, hr, hv⟩ := List.mem_filterMap.mp hmem
  have hst' : st r = .ok (some rec) := by
    unfold stepVal at hv
    cases hst : st r with
    | error e =>
      rw [hst] at hv
      dsimp only [] at hv
      exact absurd hv (by simp)
    | ok o =>
      rw [hst] at hv
      dsimp only [] at hv
      rw [hv]
  exact hstep r rec hst'

theorem validateMinRows_cases (n k : Nat) :
    validateMinRows n k = .ok () ∨
      validateMinRows n k = .error (.validationError "insufficient rows") := by
  by_cases h : n < k
  · right; simp [validateMinRows, h]
  · left; simp [validateMinRows, h]

theorem assertValidMonth_cases (months : List String) :
    assertValidMonth months = .ok () ∨
      assertValidMonth months = .error (.validationError "invalid month") := by
  by_cases h : months.all isValidMonthStr = true
  · left; simp [assertValidMonth, h]
  · right; simp [assertValidMonth, h]

/-- `validateCS` either succeeds or fails with a validation error. -/
theorem validateCS_shape (tbl : List RecCS) :
    validateCS tbl = .ok () ∨
      ∃ msg, validateCS tbl = .error (.validationError msg) := by
  rcases validateMinRows_cases tbl.length consumer_sentiment_schema.min_rows with h | h
  · simp only [validateCS, h]
    rcases assertValidMonth_cases (tbl.map RecCS.month) with h2 | h2
    · left; exact h2
    · right; exact ⟨"invalid month", h2⟩
  · right
    exact ⟨"insufficient rows", by simp only [validateCS, h]⟩

theorem validateSC_shape (tbl : List RecSC) :
    validateSC tbl = .ok () ∨
      ∃ msg, validateSC tbl = .error (.validationError msg) := by
  rcases validateMinRows_cases tbl.length sentiment_components_schema.min_rows with h | h
  · simp only [validateSC, h]
    rcases assertValidMonth_cases (tbl.map RecSC.month) with h2 | h2
    · left; exact h2
    · right; exact ⟨"invalid month", h2⟩
  · right
    exact ⟨"insufficient rows", by simp only [validateSC, h]⟩

theorem validateIE_shape (tbl : List RecIE) :
    validateIE tbl = .ok () ∨
      ∃ msg, validateIE tbl = .error (.validationError msg) := by
  rcases validateMinRows_cases tbl.length inflation_expectations_schema.min_rows with h | h
  · simp only [validateIE, h]
    rcases assertValidMonth_cases (tbl.map RecIE.month) with h2 | h2
    · left; exact h2
    · right; exact ⟨"invalid month", h2⟩
  · right
    exact ⟨"insufficient rows", by simp only [validateIE, h]⟩

/-- The "no data" error of `process_consumer_sentiment` occurs exactly
on an empty scan result. -/
theorem processCS_noData_iff (conv : String → Option Rat) (rows : List Row)
    (l : List RecCS) (h : scanCS conv rows = .ok l) :
    (processCS conv rows = .error (.noDataError "No consumer sentiment data found")
      ↔ l = []) := by
  constructor
  · intro hp
    cases l with
    | nil => rfl
    | cons x xs =>
      exfalso
      simp only [processCS, h, List.isEmpty_cons] at hp
      rcases validateCS_shape (x :: xs) with hv | ⟨msg, hv⟩ <;> rw [hv] at hp <;> simp at hp
  · intro hl
    subst hl
    simp [processCS, h]

theorem processSC_noData_iff (conv : String → Option Rat) (rows : List Row)
    (l : List RecSC) (h : scanSC conv rows = .ok l) :
    (processSC conv rows = .error (.noDataError "No sentiment components data found")
      ↔ l = []) := by
  constructor
  · intro hp
    cases l with
    | nil => rfl
    | cons x xs =>
      exfalso
      simp only [processSC, h, List.isEmpty_cons] at hp
      rcases validateSC_shape (x :: xs) with hv | ⟨msg, hv⟩ <;> rw [hv] at hp <;> simp at hp
  · intro hl
    subst hl
    simp [processSC, h]

theorem processIE_noData_iff (conv : String → Option Rat) (rows : List Row)
    (l : List RecIE) (h : scanIE conv rows = .ok l) :
    (processIE conv rows = .error (.noDataError "No inflation expectations data found")
      ↔ l = []) := by
  constructor
  · intro hp
    cases l with
    | nil => rfl
    | cons x xs =>
      exfalso
      simp only [processIE, h, List.isEmpty_cons] at hp
      rcases validateIE_shape (x :: xs) with hv | ⟨msg, hv⟩ <;> rw [hv] at hp <;> simp at hp
  · intro hl
    subst hl
    simp [processIE, h]

/-- C1 is false as stated: a raw row whose year column holds the
non-numeric string "abc" makes every processor raise `ValueError`
(from `int(...)`) instead of silently dropping the row; a following
valid row is never reached, while on its own that valid row scans
fine. -/
theorem c1_counterexample :
    processCS convOne [rowBadYear, rowGood] = .error .valueError ∧
    processSC convOne [rowBadYear, rowGood] = .error .valueError ∧
    processIE convOne [rowBadYear, rowGood] = .error .valueError ∧
    scanCS convOne [rowGood] = .ok [⟨"2020-01", 1⟩] := by decide

/-- C1 (amended): for every raw row whose year column contains a
non-numeric string, every DatasetProcessor raises `ValueError` from
`int(row.get("YYYY", "0").strip())` at that row and aborts the whole
scan — the row is not silently dropped and subsequent rows are not
processed.  (The `"0"` default applies only to a missing year column,
which is the case that is silently skipped by the cutoff.) -/
theorem c1_amended_nonnumeric_year_raises (conv : String → Option Rat) (row : Row)
    (s : String) (rest : List Row)
    (hy : List.lookup "YYYY" row = some (some s))
    (hbad : pyInt (pyStrip s) = none) :
    stepCS conv row = .error .valueError ∧
    stepSC conv row = .error .valueError ∧
    stepIE conv row = .error .valueError ∧
    scanCS conv (row :: rest) = .error .valueError ∧
    scanSC conv (row :: rest) = .error .valueError ∧
    scanIE conv (row :: rest) = .error .valueError ∧
    processCS conv (row :: rest) = .error .valueError ∧
    processSC conv (row :: rest) = .error .valueError ∧
    processIE conv (row :: rest) = .error .valueError := by
  have hcs := stepCS_raise_badYear conv row s hy hbad
  have hsc := stepSC_raise_badYear conv row s hy hbad
  have hie := stepIE_raise_badYear conv row s hy hbad
  have hscan1 : scanCS conv (row :: rest) = .error .valueError := by
    simp only [scanCS, hcs]
  have hscan2 : scanSC conv (row :: rest) = .error .valueError := by
    simp only [scanSC, hsc]
  have hscan3 : scanIE conv (row :: rest) = .error .valueError := by
    simp only [scanIE, hie]
  refine ⟨hcs, hsc, hie, hscan1, hscan2, hscan3, ?_, ?_, ?_⟩
  · simp only [processCS, hscan1]
  · simp only [processSC, hscan2]
  · simp only [processIE, hscan3]

/-- Witness for the amended C1 at the concrete fixture row. -/
theorem c1_amended_witness :
    stepCS convOne rowBadYear = .error .valueError ∧
    stepSC convOne rowBadYear = .error .valueError ∧
    stepIE convOne rowBadYear = .error .valueError ∧
    scanCS convOne [rowBadYear, rowGood] = .error .valueError ∧
    scanSC convOne [rowBadYear, rowGood] = .error .valueError ∧
    scanIE convOne [rowBadYear, rowGood] = .error .valueError ∧
    processCS convOne [rowBadYear, rowGood] = .error .valueError ∧
    processSC convOne [rowBadYear, rowGood] = .error .valueError ∧
    processIE convOne [rowBadYear, rowGood] = .error .valueError :=
  c1_amended_nonnumeric_year_raises convOne rowBadYear "abc" [rowGood]
    (by decide) (by decide)

/-- C2 is false as stated: `parse_date` renders the year with plain
`str(year)`, not zero-padded to four digits — `normalize("March",
"999")` is `"999-03"`, not `"0999-03"` — and a non-numeric year makes
it raise rather than return absent even when the month name is bad. -/
theorem c2_counterexample :
    parse_date (some "March") (some "999") = .ok (some "999-03") ∧
    (Except.ok (some "999-03") : Except PyErr (Option String)) ≠ .ok (some "0999-03") ∧
    parse_date (some "Marchh") (some "abc") = .error .valueError := by decide

/-- C2 (amended): `parse_date` trims both inputs; if the trimmed year
text is not an integer literal it raises `ValueError`; otherwise it
returns absent exactly when the trimmed month name is not one of the
twelve full English month names (case-sensitive), and else the string
`f"{year}-{month:02d}"` with the year in plain (unpadded) decimal. -/
theorem c2_amended_normalize (ms ys : String) :
    (pyInt (pyStrip ys) = none → parse_date (some ms) (some ys) = .error .valueError) ∧
    (∀ y : Int, pyInt (pyStrip ys) = some y →
      parse_date (some ms) (some ys) =
        .ok ((List.lookup (pyStrip ms) MONTH_MAP).map
          (fun m => intToDecStr y ++ "-" ++ fmt02 m))) := by
  constructor
  · intro h
    simp only [parse_date, h]
  · intro y h
    simp only [parse_date, h]
    cases List.lookup (pyStrip ms) MONTH_MAP <;> rfl

/-- Witness for the amended C2: the spec's own examples. -/
theorem c2_amended_witness :
    parse_date (some "March") (some "1990") = .ok (some "1990-03") ∧
    parse_date (some "Marchh") (some "1990") = .ok none ∧
    parse_date (some "January") (some "abc") = .error .valueError := by
  refine ⟨?_, ?_, ?_⟩
  · have h := (c2_amended_normalize "March" "1990").2 1990 (by decide)
    rw [h]; decide
  · have h := (c2_amended_normalize "Marchh" "1990").2 1990 (by decide)
    rw [h]; decide
  · exact (c2_amended_normalize "January" "abc").1 (by decide)

/-- C3: on a row with admissible year and month, the
consumer-sentiment processor emits a record iff `ICS_ALL` parses
non-null (with that value), while the components and inflation
processors emit iff at least one of their two fields parses non-null,
keeping a single null field as null in the record. -/
theorem c3_admission_rules (conv : String → Option Rat) (row : Row) (ys : String)
    (year : Int) (month : String)
    (h1 : stripE (pyGetD row "YYYY" "0") = .ok ys)
    (h2 : pyInt ys = some year)
    (h3 : ¬year < START_YEAR)
    (h4 : parse_date (pyGetD row "Month" "") (pyGetD row "YYYY" "") = .ok (some month)) :
    stepCS conv row =
      .ok ((parse_float conv (pyGet row "ICS_ALL")).map (fun v => ⟨month, v⟩)) ∧
    stepSC conv row =
      .ok (if parse_float conv (pyGet row "ICC") = none ∧
              parse_float conv (pyGet row "ICE") = none then none
           else some ⟨month, parse_float conv (pyGet row "ICC"),
                      parse_float conv (pyGet row "ICE")⟩) ∧
    stepIE conv row =
      .ok (if parse_float conv (pyGet row "PX_MD") = none ∧
              parse_float conv (pyGet row "PX5_MD") = none then none
           else some ⟨month, parse_float conv (pyGet row "PX_MD"),
                      parse_float conv (pyGet row "PX5_MD")⟩) :=
  ⟨stepCS_of_guards conv row ys year month h1 h2 h3 h4,
   stepSC_of_guards conv row ys year month h1 h2 h3 h4,
   stepIE_of_guards conv row ys year month h1 h2 h3 h4⟩

/-- Witness for C3 at a concrete admissible row. -/
theorem c3_witness :
    stepCS convOne rowGood = .ok (some ⟨"2020-01", 1⟩) ∧
    stepSC convOne rowGood = .ok (some ⟨"2020-01", some 1, some 1⟩) ∧
    stepIE convOne rowGood = .ok (some ⟨"2020-01", some 1, some 1⟩) := by
  obtain ⟨hc, hs, hi⟩ := c3_admission_rules convOne rowGood "2020" 2020 "2020-01"
    (by decide) (by decide) (by decide) (by decide)
  refine ⟨?_, ?_, ?_⟩
  · rw [hc]; decide
  · rw [hs]; decide
  · rw [hi]; decide

/-- C4: a row whose parsed year is strictly below 1978 contributes no
record to any of the three processors, whatever its other fields, and
the scan output with that row in front equals the scan output without
it. -/
theorem c4_pre_cutoff_excluded (conv : String → Option Rat) (row : Row) (ys : String)
    (year : Int) (rest : List Row)
    (h1 : stripE (pyGetD row "YYYY" "0") = .ok ys)
    (h2 : pyInt ys = some year)
    (h3 : year < START_YEAR) :
    stepCS conv row = .ok none ∧
    stepSC conv row = .ok none ∧
    stepIE conv row = .ok none ∧
    scanCS conv (row :: rest) = scanCS conv rest ∧
    scanSC conv (row :: rest) = scanSC conv rest ∧
    scanIE conv (row :: rest) = scanIE conv rest := by
  have hcs := stepCS_skip_old conv row ys year h1 h2 h3
  have hsc := stepSC_skip_old conv row ys year h1 h2 h3
  have hie := stepIE_skip_old conv row ys year h1 h2 h3
  refine ⟨hcs, hsc, hie, ?_, ?_, ?_⟩
  · simp only [scanCS, hcs]
    cases scanCS conv rest <;> rfl
  · simp only [scanSC, hsc]
    cases scanSC conv rest <;> rfl
  · simp only [scanIE, hie]
    cases scanIE conv rest <;> rfl

/-- Witness for C4 at the concrete pre-cutoff fixture row. -/
theorem c4_witness :
    stepCS convOne rowOld = .ok none ∧
    scanCS convOne [rowOld, rowGood] = scanCS convOne [rowGood] := by
  obtain ⟨hc, _, _, hs, _, _⟩ := c4_pre_cutoff_excluded convOne rowOld "1975" 1975
    [rowGood] (by decide) (by decide) (by decide)
  exact ⟨hc, hs⟩

/-- C5: `parse_float` never raises — its exception-monad form always
returns `ok` — and it maps an absent input to null, a trimmed-empty or
`"."` input to null, and any other string to the result of the float
conversion (null exactly on conversion failure); concretely
`parse("3.4") = 3.4`. -/
theorem c5_parse_float_total (conv : String → Option Rat) (v : Option String) (s : String) :
    parse_floatE conv v = .ok (parse_float conv v) ∧
    parse_float conv none = none ∧
    parse_float conv (some s) =
      (if pyStrip s = "" ∨ pyStrip s = "." then none else conv (pyStrip s)) ∧
    parse_float pyFloatDec (some "3.4") = some ((17 : Rat) / 5) := by
  refine ⟨parse_floatE_ok conv v, rfl, rfl, ?_⟩
  have h : parse_float pyFloatDec (some "3.4") =
      some (((3 : Nat) : Rat) + ((4 : Nat) : Rat) / ((10 : Rat) ^ (1 : Nat))) := rfl
  rw [h]
  norm_num

/-- C6: once the scan completes, each processor raises its "no data
found" `ValueError` exactly when the scan produced zero records; with
at least one record this error cannot occur (validation may still fail,
but with a validation error, not the no-data error). -/
theorem c6_no_data_fatal (conv : String → Option Rat) (rows : List Row)
    (l1 : List RecCS) (l2 : List RecSC) (l3 : List RecIE)
    (h1 : scanCS conv rows = .ok l1)
    (h2 : scanSC conv rows = .ok l2)
    (h3 : scanIE conv rows = .ok l3) :
    (processCS conv rows = .error (.noDataError "No consumer sentiment data found")
      ↔ l1 = []) ∧
    (processSC conv rows = .error (.noDataError "No sentiment components data found")
      ↔ l2 = []) ∧
    (processIE conv rows = .error (.noDataError "No inflation expectations data found")
      ↔ l3 = []) :=
  ⟨processCS_noData_iff conv rows l1 h1,
   processSC_noData_iff conv rows l2 h2,
   processIE_noData_iff conv rows l3 h3⟩

/-- Witness for C6: empty input triggers all three no-data errors. -/
theorem c6_witness :
    processCS convOne [] = .error (.noDataError "No consumer sentiment data found") ∧
    processSC convOne [] = .error (.noDataError "No sentiment components data found") ∧
    processIE convOne [] = .error (.noDataError "No inflation expectations data found") := by
  obtain ⟨hc, hs, hi⟩ := c6_no_data_fatal convOne [] [] [] [] rfl rfl rfl
  exact ⟨hc.mpr rfl, hs.mpr rfl, hi.mpr rfl⟩

/-- C7: when a scan completes, its output is exactly the in-order
`filterMap` of the per-row step over the input rows — order preserved,
no deduplication, no re-sorting. -/
theorem c7_order_preserved (conv : String → Option Rat) (rows : List Row) :
    (∀ l, scanCS conv rows = .ok l → l = rows.filterMap (stepVal (stepCS conv))) ∧
    (∀ l, scanSC conv rows = .ok l → l = rows.filterMap (stepVal (stepSC conv))) ∧
    (∀ l, scanIE conv rows = .ok l → l = rows.filterMap (stepVal (stepIE conv))) := by
  refine ⟨?_, ?_, ?_⟩ <;> intro l h
  · rw [scanCS_eq_loop] at h
    exact scanLoop_ok_filterMap _ rows l h
  · rw [scanSC_eq_loop] at h
    exact scanLoop_ok_filterMap _ rows l h
  · rw [scanIE_eq_loop] at h
    exact scanLoop_ok_filterMap _ rows l h

/-- Witness for C7: two identical admissible rows pass through as two
records, in order and unchanged. -/
theorem c7_witness :
    ([⟨"2020-01", 1⟩, ⟨"2020-01", 1⟩] : List RecCS) =
      [rowGood, rowGood].filterMap (stepVal (stepCS convOne)) :=
  (c7_order_preserved convOne [rowGood, rowGood]).1
    [⟨"2020-01", 1⟩, ⟨"2020-01", 1⟩] (by decide)

/-- C8: all three dataset schemas declare `min_rows = 100`; the
row-count rule fails with the insufficient-rows validation error on any
table with fewer than 100 rows and passes on 100 or more. -/
theorem c8_min_rows (t1 : List RecCS) (t2 : List RecSC) (t3 : List RecIE) (n : Nat) :
    consumer_sentiment_schema.min_rows = 100 ∧
    sentiment_components_schema.min_rows = 100 ∧
    inflation_expectations_schema.min_rows = 100 ∧
    (t1.length < 100 → validateCS t1 = .error (.validationError "insufficient rows")) ∧
    (t2.length < 100 → validateSC t2 = .error (.validationError "insufficient rows")) ∧
    (t3.length < 100 → validateIE t3 = .error (.validationError "insufficient rows")) ∧
    (100 ≤ n →
      validateMinRows n consumer_sentiment_schema.min_rows = .ok () ∧
      validateMinRows n sentiment_components_schema.min_rows = .ok () ∧
      validateMinRows n inflation_expectations_schema.min_rows = .ok ()) := by
  refine ⟨rfl, rfl, rfl, ?_, ?_, ?_, ?_⟩
  · intro h
    have hmr : validateMinRows t1.length consumer_sentiment_schema.min_rows =
        .error (.validationError "insufficient rows") := by
      simp [validateMinRows, consumer_sentiment_schema, h]
    simp only [validateCS, hmr]
  · intro h
    have hmr : validateMinRows t2.length sentiment_components_schema.min_rows =
        .error (.validationError "insufficient rows") := by
      simp [validateMinRows, sentiment_components_schema, h]
    simp only [validateSC, hmr]
  · intro h
    have hmr : validateMinRows t3.length inflation_expectations_schema.min_rows =
        .error (.validationError "insufficient rows") := by
      simp [validateMinRows, inflation_expectations_schema, h]
    simp only [validateIE, hmr]
  · intro h
    refine ⟨?_, ?_, ?_⟩ <;>
      simp [validateMinRows, consumer_sentiment_schema, sentiment_components_schema,
        inflation_expectations_schema, Nat.not_lt.mpr h]

/-- Witness for C8: 99 rows fail, 100 rows pass the row-count rule. -/
theorem c8_witness :
    validateCS (List.replicate 99 ⟨"1990-03", 1⟩) =
      .error (.validationError "insufficient rows") ∧
    validateMinRows 100 consumer_sentiment_schema.min_rows = .ok () :=
  ⟨(c8_min_rows (List.replicate 99 ⟨"1990-03", 1⟩) [] [] 100).2.2.2.1
      (by simp),
   ((c8_min_rows [] [] [] 100).2.2.2.2.2.2 (by omega)).1⟩

/-- C9: the transform is deterministic — each scan loop realizes the
big-step relation `ScanRel`, and `ScanRel` relates a given row list to
at most one outcome, so two runs on identical input produce identical
record sequences. -/
theorem c9_deterministic :
    (∀ (conv : String → Option Rat) (rows : List Row),
      ScanRel (stepCS conv) rows (scanCS conv rows) ∧
      ScanRel (stepSC conv) rows (scanSC conv rows) ∧
      ScanRel (stepIE conv) rows (scanIE conv rows)) ∧
    (∀ (α : Type) (st : Row → Except PyErr (Option α)) (rows : List Row)
        (o₁ o₂ : Except PyErr (List α)),
      ScanRel st rows o₁ → ScanRel st rows o₂ → o₁ = o₂) := by
  constructor
  · intro conv rows
    refine ⟨?_, ?_, ?_⟩
    · rw [scanCS_eq_loop]
      exact scanRel_of_loop _ rows
    · rw [scanSC_eq_loop]
      exact scanRel_of_loop _ rows
    · rw [scanIE_eq_loop]
      exact scanRel_of_loop _ rows
  · exact fun α st rows o₁ o₂ hA hB => scanRel_det st rows o₁ o₂ hA hB

/-- Witness for C9: determinism pins the concrete scan outcome. -/
theorem c9_witness : scanCS convOne [rowGood] = .ok [⟨"2020-01", 1⟩] :=
  c9_deterministic.2 RecCS (stepCS convOne) [rowGood] _ _
    ((c9_deterministic.1 convOne [rowGood]).1)
    (ScanRel.emit (by decide) ScanRel.nil)

/-- C10: every record a completed scan emits has a month of the form
`f"{year}-{mm}"` with the year at least 1978 and `mm` a zero-padded
month number between 01 and 12; for years up to 9999 the string matches
the canonical `YYYY-MM` pattern, so the semantic month check cannot
fail on such output. -/
theorem c10_month_invariant (conv : String → Option Rat) (rows : List Row) :
    (∀ l, scanCS conv rows = .ok l → ∀ rec ∈ l, MonthForm (RecCS.month rec)) ∧
    (∀ l, scanSC conv rows = .ok l → ∀ rec ∈ l, MonthForm (RecSC.month rec)) ∧
    (∀ l, scanIE conv rows = .ok l → ∀ rec ∈ l, MonthForm (RecIE.month rec)) ∧
    (∀ months : List String, (∀ s ∈ months, isValidMonthStr s = true) →
      assertValidMonth months = .ok ()) := by
  refine ⟨?_, ?_, ?_, ?_⟩
  · intro l h rec hmem
    rw [scanCS_eq_loop] at h
    exact scanLoop_month_form _ RecCS.month
      (fun r x hx => stepCS_month_form conv r x hx) rows l h rec hmem
  · intro l h rec hmem
    rw [scanSC_eq_loop] at h
    exact scanLoop_month_form _ RecSC.month
      (fun r x hx => stepSC_month_form conv r x hx) rows l h rec hmem
  · intro l h rec hmem
    rw [scanIE_eq_loop] at h
    exact scanLoop_month_form _ RecIE.month
      (fun r x hx => stepIE_month_form conv r x hx) rows l h rec hmem
  · intro months hall
    have h : months.all isValidMonthStr = true := List.all_eq_true.mpr hall
    simp [assertValidMonth, h]

/-- Witness for C10 at a concrete scan output. -/
theorem c10_witness : MonthForm "2020-01" :=
  (c10_month_invariant convOne [rowGood]).1 [⟨"2020-01", 1⟩] (by decide)
    ⟨"2020-01", 1⟩ (by decide)
